import Mathlib

/-!
Verification of the game-state engine of the Dungeon Escape repository
(src/main.cpp).  The data model (Inventory, Stack, Player, Room, Dungeon,
Entity) and the interaction/outcome engine (GamePlayScreen) are embedded
shallowly: C++ ints become Int, raw pointers into the linear room list
become indices, thrown exceptions become Except, and the mutation of
engine state becomes explicit state passing.
-/

namespace DungeonEscape

/-- Embeds Inventory<std::string> (main.cpp:175-221): a dynamic array of
item names.  add appends at the end; has is a linear membership scan. -/
structure Inventory where
  items : List String
deriving Repr, DecidableEq

/-- Inventory::add (main.cpp:205): appends unconditionally at the end. -/
def Inventory.add (inv : Inventory) (item : String) : Inventory :=
  ⟨inv.items ++ [item]⟩

/-- Inventory::has (main.cpp:206-209): linear scan for an exact match. -/
def Inventory.has (inv : Inventory) (item : String) : Bool :=
  inv.items.contains item

/-- Embeds Stack<T> (main.cpp:144-173): a singly-linked LIFO stack. -/
structure Stack (T : Type) where
  items : List T
deriving Repr, DecidableEq

/-- Stack::push (main.cpp:162): new node becomes the top. -/
def Stack.push {T : Type} (s : Stack T) (v : T) : Stack T :=
  ⟨v :: s.items⟩

/-- Stack::pop (main.cpp:163-169): removes the top node; an early return
makes it a no-op on an empty stack. -/
def Stack.pop {T : Type} (s : Stack T) : Stack T :=
  match s.items with
  | [] => s
  | _ :: rest => ⟨rest⟩

/-- Stack::top (main.cpp:170): returns the top element, or throws
std::runtime_error "Stack is empty." on an empty stack; the throw is
embedded as Except.error. -/
def Stack.top {T : Type} (s : Stack T) : Except String T :=
  match s.items with
  | [] => Except.error "Stack is empty."
  | x :: _ => Except.ok x

/-- Stack::isEmpty (main.cpp:171). -/
def Stack.isEmpty {T : Type} (s : Stack T) : Bool :=
  s.items.isEmpty

/-- Embeds the Player class (main.cpp:223-283): mutable resource holder. -/
structure Player where
  name : String
  health : Int
  moves : Int
  inventory : Inventory
  finalBossDefeated : Bool
deriving Repr, DecidableEq

/-- Player::takeDamage (main.cpp:239-245): subtracts damage, clamps the
result below at 0, and returns the damage report string. -/
def Player.takeDamage (p : Player) (damage : Int) : Player × String :=
  let h := p.health - damage
  let h2 := if h < 0 then 0 else h
  ({ p with health := h2 }, "You took " ++ toString damage ++ " damage!")

/-- Player::heal (main.cpp:246): health = min(100, health + amount). -/
def Player.heal (p : Player) (amount : Int) : Player :=
  { p with health := min 100 (p.health + amount) }

/-- Player::useMove (main.cpp:247): decrements moves; the comment in the
source notes moves may go negative to detect game over. -/
def Player.useMove (p : Player) : Player :=
  { p with moves := p.moves - 1 }

/-- Player::collectItem (main.cpp:248). -/
def Player.collectItem (p : Player) (item : String) : Player :=
  { p with inventory := p.inventory.add item }

/-- Player::hasItem (main.cpp:249). -/
def Player.hasItem (p : Player) (item : String) : Bool :=
  p.inventory.has item

/-- Player::setBossDefeated (main.cpp:250). -/
def Player.setBossDefeated (p : Player) (status : Bool) : Player :=
  { p with finalBossDefeated := status }

/-- The closed set of Entity variants instantiated by the program
(main.cpp:85-142): the Item subclasses Weapon, Potion, Key and the Enemy
subclasses MinionEnemy and BossEnemy, each carrying its name and, for
enemies, a damage value. -/
inductive Entity where
  | weapon (name : String)
  | potion (name : String)
  | key (name : String)
  | minionEnemy (name : String) (damage : Int)
  | bossEnemy (name : String) (damage : Int)
deriving Repr, DecidableEq

/-- Entity::getName (virtual, main.cpp:98/127). -/
def Entity.name : Entity → String
  | .weapon n => n
  | .potion n => n
  | .key n => n
  | .minionEnemy n _ => n
  | .bossEnemy n _ => n

/-- Enemy::getDamage (main.cpp:128); items carry no damage value. -/
def Entity.getDamage : Entity → Int
  | .minionEnemy _ d => d
  | .bossEnemy _ d => d
  | _ => 0

/-- dynamic_cast<Weapon*> succeeds exactly on the Weapon variant. -/
def Entity.isWeapon : Entity → Bool
  | .weapon _ => true
  | _ => false

/-- dynamic_cast<Enemy*> succeeds exactly on the enemy variants. -/
def Entity.isEnemy : Entity → Bool
  | .minionEnemy _ _ => true
  | .bossEnemy _ _ => true
  | _ => false

/-- dynamic_cast<BossEnemy*> succeeds exactly on the boss variant. -/
def Entity.isBoss : Entity → Bool
  | .bossEnemy _ _ => true
  | _ => false

/-- dynamic_cast<Item*> succeeds exactly on the item variants. -/
def Entity.isItemVariant : Entity → Bool
  | .weapon _ => true
  | .potion _ => true
  | .key _ => true
  | _ => false

/-- The virtual interact dispatch (main.cpp:348-364): Item::interact heals
on a Potion and collects otherwise; Enemy::interact and
BossEnemy::interact leave the player untouched and clear the result. -/
def Entity.interact (e : Entity) (p : Player) : Player × String :=
  match e with
  | .potion _ =>
      (p.heal 100, "You drank the potion and feel fully restored!")
  | .weapon n =>
      (p.collectItem n, "You picked up the " ++ n ++ ".")
  | .key n =>
      (p.collectItem n, "You picked up the " ++ n ++ ".")
  | .minionEnemy _ _ => (p, "")
  | .bossEnemy _ _ => (p, "")

/-- Embeds the Room class (main.cpp:285-297).  The next pointer of the
linked list is represented by position in the Dungeon room list. -/
structure Room where
  name : String
  description : String
  entity : Option Entity
  isFinalDoor : Bool
  isChoiceRoom : Bool
  backgroundID : String
deriving Repr, DecidableEq

/-- Embeds the Dungeon class (main.cpp:299-346).  The singly-linked room
list built once by addRoom becomes an arena list; the currentRoom pointer
and the path-tracker entries become indices into it. -/
structure Dungeon where
  rooms : List Room
  currentRoom : Option Nat
  path_tracker : Stack Nat
deriving Repr, DecidableEq

/-- Dungeon::canMoveForward (main.cpp:329): the cursor exists and its
room has a next room. -/
def Dungeon.canMoveForward (d : Dungeon) : Bool :=
  match d.currentRoom with
  | some i => i + 1 < d.rooms.length
  | none => false

/-- Dungeon::canMoveBack (main.cpp:328). -/
def Dungeon.canMoveBack (d : Dungeon) : Bool :=
  !(d.path_tracker.isEmpty)

/-- Dungeon::moveForward (main.cpp:331-337): when a successor exists,
consume a move, push the pre-move room, advance the cursor; otherwise do
nothing.  The Player& member of Dungeon is threaded explicitly. -/
def Dungeon.moveForward (p : Player) (d : Dungeon) : Player × Dungeon :=
  if d.canMoveForward then
    match d.currentRoom with
    | some i =>
        (p.useMove,
         { d with path_tracker := d.path_tracker.push i,
                  currentRoom := some (i + 1) })
    | none => (p, d)
  else (p, d)

/-- Dungeon::moveBack (main.cpp:339-345): when the tracker is non-empty,
consume a move, set the cursor to the tracker top and pop; otherwise do
nothing. -/
def Dungeon.moveBack (p : Player) (d : Dungeon) : Player × Dungeon :=
  if d.canMoveBack then
    match d.path_tracker.top with
    | Except.ok j =>
        (p.useMove,
         { d with currentRoom := some j,
                  path_tracker := d.path_tracker.pop })
    | Except.error _ => (p, d)
  else (p, d)

/-- GamePlayScreen::InteractionState (main.cpp:814). -/
inductive InteractionState where
  | EXPLORING
  | COMBAT
  | CHOICE
  | MESSAGE
deriving Repr, DecidableEq

/-- The discrete player commands delivered to the gameplay screen
(main.cpp:955-1011): key F while exploring is forward, key B is back,
key C is collect; in combat key F is fight and key R is flee; in a
choice room keys 1 and 2 pick an option; key Enter acknowledges a
message. -/
inductive Command where
  | forward
  | back
  | collect
  | fight
  | flee
  | choose1
  | choose2
  | ack
deriving Repr, DecidableEq

/-- The gameplay-relevant state owned by Game and GamePlayScreen: the
Player and Dungeon logic objects, the interaction state, the message
member, and the terminal outcome (the reason string handed to
GameOverScreen by triggerGameOver, main.cpp:1013-1017; none while the
session is live).  ranPostExhaustionBranch is a ghost observer with no
influence on behaviour: it records that the post-transition
moves-below-zero branch (main.cpp:1244-1247) executed. -/
structure EngineState where
  player : Player
  dungeon : Dungeon
  currentState : InteractionState
  message : String
  outcome : Option String
  ranPostExhaustionBranch : Bool
deriving Repr, DecidableEq

/-- GamePlayScreen::triggerGameOver (main.cpp:1013-1017): builds the
GameOverScreen with the reason and switches to it; a later call within
the same frame replaces the screen, so the outcome is overwritten. -/
def triggerGameOver (s : EngineState) (reason : String) : EngineState :=
  { s with outcome := some reason }

/-- The room the dungeon cursor points at, if any. -/
def EngineState.currentRoomOpt (s : EngineState) : Option Room :=
  match s.dungeon.currentRoom with
  | none => none
  | some i => s.dungeon.rooms[i]?

/-- Replaces room i of the dungeon (mutation through the Room* cursor). -/
def Dungeon.setRoom (d : Dungeon) (i : Nat) (r : Room) : Dungeon :=
  { d with rooms := d.rooms.set i r }

/-- GamePlayScreen::handleItemInteraction (main.cpp:1056-1070): when the
current room holds an Item, run its interact, write the result into the
room description, clear the entity slot, and return to EXPLORING. -/
def handleItemInteraction (s : EngineState) : EngineState :=
  match s.dungeon.currentRoom with
  | none => s
  | some i =>
    match s.dungeon.rooms[i]? with
    | none => s
    | some room =>
      match room.entity with
      | none => s
      | some e =>
        if e.isItemVariant then
          let pr := e.interact s.player
          { s with player := pr.1,
                   dungeon := s.dungeon.setRoom i
                     ({ room with description := pr.2, entity := none }),
                   currentState := InteractionState.EXPLORING }
        else s

/-- GamePlayScreen::checkRoomState (main.cpp:1019-1054): evaluates the
current room in precedence order — final door (win or loss), the sword
waiting in the weapon room (stay EXPLORING), an enemy (COMBAT), any
other item (automatic interaction), an unresolved choice room (CHOICE),
otherwise EXPLORING. -/
def checkRoomState (s : EngineState) : EngineState :=
  match s.currentRoomOpt with
  | none => s
  | some room =>
    if room.isFinalDoor then
      if s.player.hasItem "Golden Key" && s.player.finalBossDefeated then
        triggerGameOver s
          "You used the Golden key and escaped. You are VICTORIOUS!"
      else if s.player.hasItem "Golden Key" then
        triggerGameOver s
          "The final door is locked tight. The boss must be defeated!"
      else
        triggerGameOver s
          "The final door is locked. You needed the Golden Key."
    else
      match room.entity with
      | some e =>
        if e.isWeapon && room.name == "Chamber of the Cursed Blades" then
          { s with currentState := InteractionState.EXPLORING }
        else if e.isEnemy then
          { s with currentState := InteractionState.COMBAT }
        else
          handleItemInteraction s
      | none =>
        if room.isChoiceRoom then
          { s with currentState := InteractionState.CHOICE }
        else
          { s with currentState := InteractionState.EXPLORING }

/-- GamePlayScreen::handleCombat (main.cpp:1072-1115): effective damage
is the enemy damage, reduced to 50 against the boss when the player
holds the Sword; the damage is applied; death (health <= 0) is a
terminal loss with the room left intact; survival clears the enemy,
sets the boss flag when the enemy was the boss, and shows a MESSAGE. -/
def handleCombat (s : EngineState) : EngineState :=
  match s.dungeon.currentRoom with
  | none => s
  | some i =>
    match s.dungeon.rooms[i]? with
    | none => s
    | some room =>
      match room.entity with
      | none => s
      | some e =>
        if e.isEnemy then
          let isBoss := e.isBoss
          let effectiveDamage : Int :=
            if isBoss && s.player.hasItem "Sword" then 50 else e.getDamage
          let preMsg : String :=
            if isBoss then
              if s.player.hasItem "Sword" then
                "Your Sword glows, weakening the boss!\n"
              else
                "You are unarmed against the mighty boss!\n"
            else ""
          let pr := s.player.takeDamage effectiveDamage
          let msg := preMsg ++ pr.2
          if pr.1.health ≤ 0 then
            { s with player := pr.1, message := msg,
                     outcome := some "You have died in combat." }
          else
            let p2 := if isBoss then pr.1.setBossDefeated true else pr.1
            { s with player := p2, message := msg,
                     dungeon := s.dungeon.setRoom i
                       ({ room with
                          description := "You defeated the " ++ e.name ++
                            ". The way is clear. (You took " ++
                            toString effectiveDamage ++ " damage)",
                          entity := none }),
                     currentState := InteractionState.MESSAGE }
        else s

/-- GamePlayScreen::handleChoice (main.cpp:1117-1133): in an unresolved
choice room, option 1 grants the Golden Key and any other option heals
to full; either way the choice flag is cleared and the state returns to
EXPLORING. -/
def handleChoice (s : EngineState) (choice : Int) : EngineState :=
  match s.dungeon.currentRoom with
  | none => s
  | some i =>
    match s.dungeon.rooms[i]? with
    | none => s
    | some room =>
      if room.isChoiceRoom then
        if choice == 1 then
          { s with player := s.player.collectItem "Golden Key",
                   dungeon := s.dungeon.setRoom i
                     ({ room with
                          description := "You took the Golden Key.",
                          isChoiceRoom := false }),
                   currentState := InteractionState.EXPLORING }
        else
          { s with player := s.player.heal 100,
                   dungeon := s.dungeon.setRoom i
                     ({ room with
                          description := "You drank the Health Potion.",
                          isChoiceRoom := false }),
                   currentState := InteractionState.EXPLORING }
      else s

/-- The transition-completion code in GamePlayScreen::update
(main.cpp:1237-1252): after the fade-out callback ran, a negative move
counter is a terminal loss checked before the new room is evaluated;
otherwise the room is (re-)evaluated by checkRoomState. -/
def completeTransition (s : EngineState) : EngineState :=
  if s.player.moves < 0 then
    { s with outcome := some "You have run out of moves.",
             ranPostExhaustionBranch := true }
  else checkRoomState s

/-- Advancing the dungeon through moveForward inside the transition
callback (main.cpp:967). -/
def moveForwardStep (s : EngineState) : EngineState :=
  let pd := Dungeon.moveForward s.player s.dungeon
  { s with player := pd.1, dungeon := pd.2 }

/-- Backtracking through moveBack inside the transition callback
(main.cpp:976). -/
def moveBackStep (s : EngineState) : EngineState :=
  let pd := Dungeon.moveBack s.player s.dungeon
  { s with player := pd.1, dungeon := pd.2 }

/-- Collecting the Sword in the weapon room (main.cpp:981-989). -/
def collectSwordStep (s : EngineState) (i : Nat) (room : Room) : EngineState :=
  { s with player := s.player.collectItem "Sword",
           dungeon := s.dungeon.setRoom i
             ({ room with
                description :=
                  "You grasp the sword. A surge of ultimate power floods your veins.",
                entity := none }),
           currentState := InteractionState.EXPLORING }

/-- GamePlayScreen::handleEvent (main.cpp:955-1011) combined with the
transition completion of update (main.cpp:1237-1252): one discrete
player command processed atomically, as the commands are serialized
(handleEvent ignores input while a transition is running, and once the
game-over screen is up the gameplay screen no longer receives events).
Navigation while exploring is guarded by the moves <= 0 exhaustion
check before the availability check; every transition callback is
followed by the moves < 0 check and a room re-evaluation. -/
def handleEvent (s : EngineState) (c : Command) : EngineState :=
  if s.outcome.isSome then s
  else
    match s.currentState, c with
    | InteractionState.EXPLORING, Command.forward =>
        if s.player.moves ≤ 0 then
          triggerGameOver s "You have run out of moves."
        else if s.dungeon.canMoveForward then
          completeTransition (moveForwardStep s)
        else s
    | InteractionState.EXPLORING, Command.back =>
        if s.player.moves ≤ 0 then
          triggerGameOver s "You have run out of moves."
        else if s.dungeon.canMoveBack then
          completeTransition (moveBackStep s)
        else s
    | InteractionState.EXPLORING, Command.collect =>
        match s.dungeon.currentRoom with
        | none => s
        | some i =>
          match s.dungeon.rooms[i]? with
          | none => s
          | some room =>
            match room.entity with
            | none => s
            | some e =>
              if e.isWeapon && room.name == "Chamber of the Cursed Blades" then
                completeTransition (collectSwordStep s i room)
              else s
    | InteractionState.COMBAT, Command.fight =>
        completeTransition (handleCombat s)
    | InteractionState.COMBAT, Command.flee =>
        triggerGameOver s "You fled in terror!"
    | InteractionState.CHOICE, Command.choose1 =>
        completeTransition (handleChoice s 1)
    | InteractionState.CHOICE, Command.choose2 =>
        completeTransition (handleChoice s 2)
    | InteractionState.MESSAGE, Command.ack =>
        completeTransition { s with currentState := InteractionState.EXPLORING }
    | _, _ => s

/-- Running a sequence of commands through the engine. -/
def run (s : EngineState) (cs : List Command) : EngineState :=
  cs.foldl handleEvent s

/-- setupDungeon (main.cpp:1295-1324): the fixed 9-room world. -/
def setupDungeon : List Room :=
  [ { name := "Dungeon Entrance",
      description := "The heavy stone door slams shut behind you. Your only way is forward.",
      entity := none, isFinalDoor := false, isChoiceRoom := false,
      backgroundID := "dungeon.png" },
    { name := "Sanctum of Fire and Frost",
      description := "You dare enter my domain, mortal? The fire and frost bend to my will. If you wish to pass, you must defeat me first.",
      entity := some (Entity.minionEnemy "Wizard" 10),
      isFinalDoor := false, isChoiceRoom := false,
      backgroundID := "wizard.png" },
    { name := "Dragon\x27s Lair",
      description := "The air is hot and smells of sulfur. A scaly beast awakens from its slumber.",
      entity := some (Entity.minionEnemy "Dragon" 15),
      isFinalDoor := false, isChoiceRoom := false,
      backgroundID := "dragon.png" },
    { name := "Zombie\x27s Crypt",
      description := "Dust swirls through shafts of cold light. From the gloom, a corpse lurches forward with dead, hungry eyes.",
      entity := some (Entity.minionEnemy "Zombie" 5),
      isFinalDoor := false, isChoiceRoom := false,
      backgroundID := "zombie.png" },
    { name := "Chamber of the Cursed Blades",
      description := "Dark swords float mid-air, glowing with runes. A red sigil burns behind them, pulsing with power.",
      entity := some (Entity.weapon "Sword"),
      isFinalDoor := false, isChoiceRoom := false,
      backgroundID := "sword.png" },
    { name := "Room of Choice",
      description := "The hooded figure looks up from his book. \x27You can only take one,\x27 he says. \x27The golden key... or the potion that gives you health\x27",
      entity := none, isFinalDoor := false, isChoiceRoom := true,
      backgroundID := "potion.png" },
    { name := "Giant Monster\x27s Den",
      description := "Huge claw marks scar the walls. A hulking creature guards the path ahead.",
      entity := some (Entity.minionEnemy "Giant Monster" 10),
      isFinalDoor := false, isChoiceRoom := false,
      backgroundID := "monster.png" },
    { name := "Final Boss Chamber",
      description := "This is it. The final guardian.",
      entity := some (Entity.bossEnemy "Final Boss" 75),
      isFinalDoor := false, isChoiceRoom := false,
      backgroundID := "finalboss.png" },
    { name := "The Final Door",
      description := "You see a massive, ornate door with a single large keyhole. This must be the exit.",
      entity := none, isFinalDoor := true, isChoiceRoom := false,
      backgroundID := "finaldoor.png" } ]

/-- Game::startGameplay (main.cpp:1352-1358) followed by
GamePlayScreen::onEnter (main.cpp:904-910): a fresh Player with health
100 and 10 moves, the fixed dungeon with the cursor on the entrance,
and an initial room evaluation. -/
def initialEngineState (playerName : String) : EngineState :=
  checkRoomState
    { player := { name := playerName, health := 100, moves := 10,
                  inventory := ⟨[]⟩, finalBossDefeated := false },
      dungeon := { rooms := setupDungeon, currentRoom := some 0,
                   path_tracker := ⟨[]⟩ },
      currentState := InteractionState.EXPLORING,
      message := "",
      outcome := none,
      ranPostExhaustionBranch := false }

/-- Whether the haystack starts with the needle, on character lists. -/
def matchesAt : List Char → List Char → Bool
  | [], _ => true
  | _ :: _, [] => false
  | a :: as, b :: bs => a == b && matchesAt as bs

/-- Substring occurrence on character lists (std::string::find succeeding). -/
def containsSeq (needle : List Char) : List Char → Bool
  | [] => matchesAt needle []
  | c :: rest => matchesAt needle (c :: rest) || containsSeq needle rest

/-- The win classification applied by GameOverScreen (main.cpp:757):
a reason string counts as a win when reason.find("VICTORIOUS") is not
npos, i.e. when the string contains "VICTORIOUS". -/
def winClassification (reason : String) : Bool :=
  containsSeq "VICTORIOUS".toList reason.toList

/-! ## Theorems -/

/-- A single health-affecting operation of the Player interface. -/
inductive HealthOp where
  | takeDamage (d : Int)
  | heal (a : Int)
deriving Repr, DecidableEq

/-- The operation carries a non-negative amount, as every call site in
the program does (enemy damage values are non-negative and heal is
always called with 100). -/
def HealthOp.isNonneg : HealthOp → Bool
  | .takeDamage d => decide (0 ≤ d)
  | .heal a => decide (0 ≤ a)

/-- Applying one health operation to the player. -/
def applyHealthOp (p : Player) : HealthOp → Player
  | .takeDamage d => (p.takeDamage d).1
  | .heal a => p.heal a

/-- Applying a sequence of health operations to the player. -/
def applyHealthOps (p : Player) (ops : List HealthOp) : Player :=
  ops.foldl applyHealthOp p

/-- Claim C3: for every sequence of takeDamage and heal operations
applied to a player whose health starts in [0, 100], health remains in
[0, 100]: takeDamage never leaves health below 0 and heal never leaves
it above 100. -/
theorem claim_C3_health_clamped (p : Player) (ops : List HealthOp)
    (hops : ∀ op ∈ ops, op.isNonneg = true)
    (h0 : 0 ≤ p.health) (h1 : p.health ≤ 100) :
    0 ≤ (applyHealthOps p ops).health ∧ (applyHealthOps p ops).health ≤ 100 := by
  induction ops generalizing p with
  | nil => exact ⟨h0, h1⟩
  | cons op rest ih =>
    have hop : op.isNonneg = true := hops op (List.mem_cons_self op rest)
    have hrest : ∀ o ∈ rest, o.isNonneg = true :=
      fun o ho => hops o (List.mem_cons_of_mem op ho)
    have hstep : 0 ≤ (applyHealthOp p op).health ∧ (applyHealthOp p op).health ≤ 100 := by
      cases op with
      | takeDamage d =>
        simp only [HealthOp.isNonneg, decide_eq_true_eq] at hop
        simp only [applyHealthOp, Player.takeDamage]
        constructor <;> (split <;> omega)
      | heal a =>
        simp only [HealthOp.isNonneg, decide_eq_true_eq] at hop
        simp only [applyHealthOp, Player.heal]
        omega
    have hfold : applyHealthOps p (op :: rest) = applyHealthOps (applyHealthOp p op) rest := rfl
    rw [hfold]
    exact ih (applyHealthOp p op) hrest hstep.1 hstep.2

/-- A fixed player used to instantiate witnesses. -/
def probePlayer : Player :=
  { name := "Hero", health := 100, moves := 10,
    inventory := ⟨[]⟩, finalBossDefeated := false }

/-- Witness for C3 at a concrete operation sequence. -/
theorem claim_C3_health_clamped_witness :
    0 ≤ (applyHealthOps probePlayer
          [HealthOp.takeDamage 30, HealthOp.heal 100, HealthOp.takeDamage 200]).health
    ∧ (applyHealthOps probePlayer
        [HealthOp.takeDamage 30, HealthOp.heal 100, HealthOp.takeDamage 200]).health ≤ 100 :=
  claim_C3_health_clamped probePlayer
    [HealthOp.takeDamage 30, HealthOp.heal 100, HealthOp.takeDamage 200]
    (by decide) (by decide) (by decide)

/-- Claim C4: moveForward with a successor consumes exactly one move,
pushes the pre-move room and advances the cursor, and is a no-op
otherwise; moveBack with a non-empty tracker consumes exactly one move
and pops the tracker top into the cursor, and is a no-op otherwise. -/
theorem claim_C4_navigation (p : Player) (d : Dungeon) :
    (∀ i : Nat, d.currentRoom = some i → i + 1 < d.rooms.length →
      Dungeon.moveForward p d =
        (p.useMove, { d with path_tracker := d.path_tracker.push i,
                             currentRoom := some (i + 1) }))
    ∧ (d.canMoveForward = false → Dungeon.moveForward p d = (p, d))
    ∧ (∀ (j : Nat) (rest : List Nat), d.path_tracker.items = j :: rest →
      Dungeon.moveBack p d =
        (p.useMove, { d with currentRoom := some j, path_tracker := ⟨rest⟩ }))
    ∧ (d.path_tracker.items = [] → Dungeon.moveBack p d = (p, d))
    ∧ p.useMove.moves = p.moves - 1 := by
  refine ⟨?_, ?_, ?_, ?_, rfl⟩
  · intro i hi hlt
    have hcf : d.canMoveForward = true := by
      simp [Dungeon.canMoveForward, hi, hlt]
    simp [Dungeon.moveForward, hcf, hi]
  · intro hcf
    simp [Dungeon.moveForward, hcf]
  · intro j rest htr
    have hcb : d.canMoveBack = true := by
      simp [Dungeon.canMoveBack, Stack.isEmpty, htr]
    simp [Dungeon.moveBack, hcb, Stack.top, Stack.pop, htr]
  · intro htr
    have hcb : d.canMoveBack = false := by
      simp [Dungeon.canMoveBack, Stack.isEmpty, htr]
    simp [Dungeon.moveBack, hcb]

/-- A fixed dungeon (the game world, cursor on the entrance, one room
recorded in the tracker) used to instantiate witnesses. -/
def probeDungeon : Dungeon :=
  { rooms := setupDungeon, currentRoom := some 0, path_tracker := ⟨[3]⟩ }

/-- Witness for C4 at the concrete probe dungeon. -/
theorem claim_C4_navigation_witness :
    Dungeon.moveForward probePlayer probeDungeon =
      (probePlayer.useMove,
       { probeDungeon with path_tracker := probeDungeon.path_tracker.push 0,
                           currentRoom := some 1 })
    ∧ Dungeon.moveBack probePlayer probeDungeon =
      (probePlayer.useMove,
       { probeDungeon with currentRoom := some 3, path_tracker := ⟨[]⟩ }) :=
  ⟨(claim_C4_navigation probePlayer probeDungeon).1 0 rfl (by decide),
   (claim_C4_navigation probePlayer probeDungeon).2.2.1 3 [] rfl⟩

/-- Counterexample for C7 as stated: Stack::top on an empty stack does
not fail benignly as a no-op; it throws std::runtime_error "Stack is
empty." (embedded as Except.error), and in this program that exception
is caught only by the top-level handler in main, which ends the run. -/
theorem claim_C7_counterexample :
    Stack.top (Stack.mk ([] : List Nat)) = Except.error "Stack is empty." := rfl

/-- Claim C7 as amended: pop on an empty stack is a no-op, while top on
an empty stack throws std::runtime_error rather than acting as a
no-op. -/
theorem claim_C7_empty_stack (T : Type) :
    Stack.pop (Stack.mk ([] : List T)) = Stack.mk ([] : List T)
    ∧ Stack.top (Stack.mk ([] : List T)) = Except.error "Stack is empty." :=
  ⟨rfl, rfl⟩

/-- Claim C8: interacting with a Potion item sets health to exactly 100
with the "restored" message; interacting with a non-Potion item (Weapon
or Key) appends its name to the inventory, leaves health unchanged, and
produces the "picked up" message naming the item. -/
theorem claim_C8_item_interact (p : Player) (n : String) (hh : 0 ≤ p.health) :
    Entity.interact (Entity.potion n) p =
      ({ p with health := 100 }, "You drank the potion and feel fully restored!")
    ∧ Entity.interact (Entity.weapon n) p =
      (p.collectItem n, "You picked up the " ++ n ++ ".")
    ∧ Entity.interact (Entity.key n) p =
      (p.collectItem n, "You picked up the " ++ n ++ ".")
    ∧ (p.collectItem n).health = p.health := by
  refine ⟨?_, rfl, rfl, rfl⟩
  have hmin : min 100 (p.health + 100) = 100 := min_eq_left (by omega)
  simp [Entity.interact, Player.heal, hmin]

/-- Witness for C8 at concrete items. -/
theorem claim_C8_item_interact_witness :
    Entity.interact (Entity.potion "Health Potion") probePlayer =
      ({ probePlayer with health := 100 }, "You drank the potion and feel fully restored!")
    ∧ Entity.interact (Entity.weapon "Sword") probePlayer =
      (probePlayer.collectItem "Sword", "You picked up the " ++ "Sword" ++ ".")
    ∧ Entity.interact (Entity.key "Golden Key") probePlayer =
      (probePlayer.collectItem "Golden Key", "You picked up the " ++ "Golden Key" ++ ".")
    ∧ (probePlayer.collectItem "Sword").health = probePlayer.health :=
  ⟨(claim_C8_item_interact probePlayer "Health Potion" (by decide)).1,
   (claim_C8_item_interact probePlayer "Sword" (by decide)).2.1,
   (claim_C8_item_interact probePlayer "Golden Key" (by decide)).2.2.1,
   (claim_C8_item_interact probePlayer "Sword" (by decide)).2.2.2⟩

/-- Claim C9: when a successor exists, moveForward followed by moveBack
restores the dungeon exactly (cursor and tracker included) and costs the
player exactly 2 moves. -/
theorem claim_C9_roundtrip (p : Player) (d : Dungeon)
    (h : d.canMoveForward = true) :
    (Dungeon.moveBack (Dungeon.moveForward p d).1 (Dungeon.moveForward p d).2).2 = d
    ∧ (Dungeon.moveBack (Dungeon.moveForward p d).1 (Dungeon.moveForward p d).2).1 =
        { p with moves := p.moves - 2 } := by
  obtain ⟨rooms, cur, tracker⟩ := d
  obtain ⟨i, hi⟩ : ∃ i, cur = some i := by
    cases hc : cur with
    | none => subst hc; simp [Dungeon.canMoveForward] at h
    | some i => exact ⟨i, rfl⟩
  subst hi
  have h9 : i + 1 < rooms.length := by
    simpa [Dungeon.canMoveForward] using h
  obtain ⟨items⟩ := tracker
  constructor
  · simp [Dungeon.moveForward, Dungeon.moveBack, Dungeon.canMoveForward,
          Dungeon.canMoveBack, Stack.isEmpty, Stack.top, Stack.push, Stack.pop, h9]
  · simp [Dungeon.moveForward, Dungeon.moveBack, Dungeon.canMoveForward,
          Dungeon.canMoveBack, Stack.isEmpty, Stack.top, Stack.push, Stack.pop, h9,
          Player.useMove]
    cases p
    simp
    omega

/-- Witness for C9 at the concrete probe dungeon. -/
theorem claim_C9_roundtrip_witness :
    (Dungeon.moveBack (Dungeon.moveForward probePlayer probeDungeon).1
        (Dungeon.moveForward probePlayer probeDungeon).2).2 = probeDungeon
    ∧ (Dungeon.moveBack (Dungeon.moveForward probePlayer probeDungeon).1
        (Dungeon.moveForward probePlayer probeDungeon).2).1 =
        { probePlayer with moves := probePlayer.moves - 2 } :=
  claim_C9_roundtrip probePlayer probeDungeon (by decide)

/-- Claim C1: when the current room is the final door, the
room-evaluation step ends the session with WIN iff the player holds the
Golden Key and finalBossDefeated is true; every other combination ends
it with LOSS, and the two loss messages distinguish whether the key
alone was held. -/
theorem claim_C1_final_door (s : EngineState) (room : Room)
    (hroom : s.currentRoomOpt = some room)
    (hfd : room.isFinalDoor = true) :
    (checkRoomState s).outcome =
      some (if s.player.hasItem "Golden Key" && s.player.finalBossDefeated then
              "You used the Golden key and escaped. You are VICTORIOUS!"
            else if s.player.hasItem "Golden Key" then
              "The final door is locked tight. The boss must be defeated!"
            else
              "The final door is locked. You needed the Golden Key.")
    ∧ winClassification
        "You used the Golden key and escaped. You are VICTORIOUS!" = true
    ∧ winClassification
        "The final door is locked tight. The boss must be defeated!" = false
    ∧ winClassification
        "The final door is locked. You needed the Golden Key." = false
    ∧ "The final door is locked tight. The boss must be defeated!" ≠
        "The final door is locked. You needed the Golden Key." := by
  refine ⟨?_, by decide, by decide, by decide, by decide⟩
  by_cases h1 : s.player.hasItem "Golden Key" = true <;>
  by_cases h2 : s.player.finalBossDefeated = true <;>
  simp [checkRoomState, hroom, hfd, triggerGameOver, h1, h2]

/-- The engine state used to instantiate the C1 witness: the probe
player standing at the final door of the game world. -/
def finalDoorProbe : EngineState :=
  { player := probePlayer,
    dungeon := { rooms := setupDungeon, currentRoom := some 8,
                 path_tracker := ⟨[]⟩ },
    currentState := InteractionState.EXPLORING,
    message := "", outcome := none, ranPostExhaustionBranch := false }

/-- The final-door room of the game world. -/
def finalDoorRoom : Room :=
  { name := "The Final Door",
    description := "You see a massive, ornate door with a single large keyhole. This must be the exit.",
    entity := none, isFinalDoor := true, isChoiceRoom := false,
    backgroundID := "finaldoor.png" }

/-- Witness for C1 at a concrete state standing on the final door. -/
theorem claim_C1_final_door_witness :
    (finalDoorProbe.currentRoomOpt = some finalDoorRoom
      ∧ finalDoorRoom.isFinalDoor = true)
    ∧ ((checkRoomState finalDoorProbe).outcome =
        some (if finalDoorProbe.player.hasItem "Golden Key" &&
                 finalDoorProbe.player.finalBossDefeated then
                "You used the Golden key and escaped. You are VICTORIOUS!"
              else if finalDoorProbe.player.hasItem "Golden Key" then
                "The final door is locked tight. The boss must be defeated!"
              else
                "The final door is locked. You needed the Golden Key.")
      ∧ winClassification
          "You used the Golden key and escaped. You are VICTORIOUS!" = true
      ∧ winClassification
          "The final door is locked tight. The boss must be defeated!" = false
      ∧ winClassification
          "The final door is locked. You needed the Golden Key." = false
      ∧ "The final door is locked tight. The boss must be defeated!" ≠
          "The final door is locked. You needed the Golden Key.") :=
  ⟨⟨rfl, rfl⟩, claim_C1_final_door finalDoorProbe finalDoorRoom rfl rfl⟩

/-- Claim C2: resolving combat against the boss applies effective damage
exactly 50 when the player holds the Sword and exactly 75 otherwise
(health falls by that amount, clamped at 0), and finalBossDefeated
becomes true iff health is still above 0 after the damage. -/
theorem claim_C2_boss_combat (s : EngineState) (i : Nat) (room : Room)
    (bname : String)
    (hi : s.dungeon.currentRoom = some i)
    (hroom : s.dungeon.rooms[i]? = some room)
    (hent : room.entity = some (Entity.bossEnemy bname 75))
    (hflag : s.player.finalBossDefeated = false) :
    (handleCombat s).player.health =
      (if s.player.health -
            (if s.player.hasItem "Sword" then (50 : Int) else 75) < 0 then 0
       else s.player.health -
            (if s.player.hasItem "Sword" then (50 : Int) else 75))
    ∧ ((handleCombat s).player.finalBossDefeated = true ↔
        0 < (handleCombat s).player.health) := by
  have hb : ∀ (sw : Bool), s.player.hasItem "Sword" = sw →
      (handleCombat s).player.health =
        (if s.player.health - (if sw then (50 : Int) else 75) < 0 then 0
         else s.player.health - (if sw then (50 : Int) else 75))
      ∧ ((handleCombat s).player.finalBossDefeated = true ↔
          0 < (handleCombat s).player.health) := by
    intro sw hs
    cases sw with
    | true =>
      simp only [handleCombat, hi, hroom, hent, Entity.isEnemy, Entity.isBoss,
        Entity.getDamage, Player.takeDamage, Player.setBossDefeated, hs,
        Bool.and_self, if_true, ite_true]
      refine ⟨?_, ?_⟩ <;> (repeat' split) <;> simp_all
    | false =>
      simp only [handleCombat, hi, hroom, hent, Entity.isEnemy, Entity.isBoss,
        Entity.getDamage, Player.takeDamage, Player.setBossDefeated, hs,
        Bool.and_false, if_false, ite_false]
      refine ⟨?_, ?_⟩ <;> (repeat' split) <;> simp_all
  rw [show (if s.player.hasItem "Sword" then (50 : Int) else 75) =
        (if (s.player.hasItem "Sword" : Bool) = true then (50 : Int) else 75) by
      simp]
  cases hval : s.player.hasItem "Sword" with
  | true => simpa using hb true hval
  | false => simpa using hb false hval

/-- The engine state used to instantiate the C2 witness: the probe
player (no Sword, boss not defeated) standing in the boss chamber of
the game world. -/
def bossProbe : EngineState :=
  { player := probePlayer,
    dungeon := { rooms := setupDungeon, currentRoom := some 7,
                 path_tracker := ⟨[]⟩ },
    currentState := InteractionState.COMBAT,
    message := "", outcome := none, ranPostExhaustionBranch := false }

/-- Witness for C2 at a concrete state in the boss chamber. -/
theorem claim_C2_boss_combat_witness :
    (bossProbe.dungeon.currentRoom = some 7
      ∧ bossProbe.dungeon.rooms[7]? = some
          { name := "Final Boss Chamber",
            description := "This is it. The final guardian.",
            entity := some (Entity.bossEnemy "Final Boss" 75),
            isFinalDoor := false, isChoiceRoom := false,
            backgroundID := "finalboss.png" }
      ∧ bossProbe.player.finalBossDefeated = false)
    ∧ ((handleCombat bossProbe).player.health =
        (if bossProbe.player.health -
              (if bossProbe.player.hasItem "Sword" then (50 : Int) else 75) < 0
         then 0
         else bossProbe.player.health -
              (if bossProbe.player.hasItem "Sword" then (50 : Int) else 75))
      ∧ ((handleCombat bossProbe).player.finalBossDefeated = true ↔
          0 < (handleCombat bossProbe).player.health)) :=
  ⟨⟨rfl, rfl, rfl⟩,
   claim_C2_boss_combat bossProbe 7
     { name := "Final Boss Chamber",
       description := "This is it. The final guardian.",
       entity := some (Entity.bossEnemy "Final Boss" 75),
       isFinalDoor := false, isChoiceRoom := false,
       backgroundID := "finalboss.png" }
     "Final Boss" rfl rfl rfl rfl⟩

/-- Claim C5: a navigation command issued while exploring with moves at
or below 0 ends the session with the out-of-moves LOSS and performs no
navigation (the state is unchanged except for the outcome); and
independently, the transition-completion path declares the same LOSS
whenever moves is negative after the callback, before the new room is
evaluated (the state is unchanged except for the outcome and the
branch marker). -/
theorem claim_C5_exhaustion_guards (s : EngineState)
    (hout : s.outcome = none)
    (hst : s.currentState = InteractionState.EXPLORING)
    (hm : s.player.moves ≤ 0) :
    handleEvent s Command.forward =
      { s with outcome := some "You have run out of moves." }
    ∧ handleEvent s Command.back =
      { s with outcome := some "You have run out of moves." }
    ∧ (∀ s2 : EngineState, s2.player.moves < 0 →
        completeTransition s2 =
          { s2 with outcome := some "You have run out of moves.",
                    ranPostExhaustionBranch := true }) := by
  refine ⟨?_, ?_, ?_⟩
  · simp [handleEvent, hout, hst, hm, triggerGameOver]
  · simp [handleEvent, hout, hst, hm, triggerGameOver]
  · intro s2 h2
    simp [completeTransition, h2]

/-- The engine state used to instantiate the C5 witness: exploring at
the entrance with 0 moves left. -/
def exhaustedProbe : EngineState :=
  { player := { probePlayer with moves := 0 },
    dungeon := { rooms := setupDungeon, currentRoom := some 0,
                 path_tracker := ⟨[]⟩ },
    currentState := InteractionState.EXPLORING,
    message := "", outcome := none, ranPostExhaustionBranch := false }

/-- Witness for C5 at a concrete exhausted state, including the
post-transition guard at a concrete state with negative moves. -/
theorem claim_C5_exhaustion_guards_witness :
    handleEvent exhaustedProbe Command.forward =
      { exhaustedProbe with outcome := some "You have run out of moves." }
    ∧ handleEvent exhaustedProbe Command.back =
      { exhaustedProbe with outcome := some "You have run out of moves." }
    ∧ completeTransition
        { exhaustedProbe with player := { probePlayer with moves := -1 } } =
      { exhaustedProbe with
          player := { probePlayer with moves := -1 },
          outcome := some "You have run out of moves.",
          ranPostExhaustionBranch := true } :=
  ⟨(claim_C5_exhaustion_guards exhaustedProbe rfl rfl (by decide)).1,
   (claim_C5_exhaustion_guards exhaustedProbe rfl rfl (by decide)).2.1,
   (claim_C5_exhaustion_guards exhaustedProbe rfl rfl (by decide)).2.2
     { exhaustedProbe with player := { probePlayer with moves := -1 } }
     (by decide)⟩

/-- A condition is newly true when it was false before and true after. -/
def newlyTrue (before after : Bool) : Bool :=
  !before && after

/-- A player state standing in an unresolved choice room with full
health and no Golden Key. -/
def choiceProbeFull : EngineState :=
  { player := { name := "Hero", health := 100, moves := 10,
                inventory := ⟨[]⟩, finalBossDefeated := false },
    dungeon := { rooms := [ { name := "Room of Choice", description := "",
                              entity := none, isFinalDoor := false,
                              isChoiceRoom := true,
                              backgroundID := "potion.png" } ],
                 currentRoom := some 0, path_tracker := ⟨[]⟩ },
    currentState := InteractionState.CHOICE,
    message := "", outcome := none, ranPostExhaustionBranch := false }

/-- Counterexample for C6 as stated: with the player already at full
health in an unresolved choice room, resolving with option 2 (the
potion) makes neither of the two conditions newly true — health was
already 100 and the Golden Key is still absent — so it is false that
exactly one of them becomes newly true for every player state. -/
theorem claim_C6_counterexample :
    (choiceProbeFull.currentRoomOpt.map Room.isChoiceRoom = some true
      ∧ choiceProbeFull.player.health = 100)
    ∧ newlyTrue (choiceProbeFull.player.hasItem "Golden Key")
        ((handleChoice choiceProbeFull 2).player.hasItem "Golden Key") = false
    ∧ newlyTrue (decide (choiceProbeFull.player.health = 100))
        (decide ((handleChoice choiceProbeFull 2).player.health = 100)) = false := by
  refine ⟨⟨rfl, rfl⟩, rfl, ?_⟩
  decide

/-- Claim C6 as amended: when the current room is an unresolved choice
room and the player does not yet hold the Golden Key and has health in
[0, 100) — as in every reachable visit to the choice room — resolving
the choice makes exactly one of the two conditions newly true (option 1
grants the key and leaves health below 100; any other option heals to
exactly 100 and grants no key), clears the room's choice flag so the
choice can never be re-triggered, and moves the interaction state to
EXPLORING. -/
theorem claim_C6_choice_resolution (s : EngineState) (i : Nat) (room : Room)
    (c : Int)
    (hi : s.dungeon.currentRoom = some i)
    (hroom : s.dungeon.rooms[i]? = some room)
    (hch : room.isChoiceRoom = true)
    (hkey : s.player.hasItem "Golden Key" = false)
    (hh0 : 0 ≤ s.player.health)
    (hh1 : s.player.health < 100) :
    (handleChoice s c).currentState = InteractionState.EXPLORING
    ∧ ((handleChoice s c).dungeon.rooms[i]?).map Room.isChoiceRoom = some false
    ∧ (∀ c2 : Int, handleChoice (handleChoice s c) c2 = handleChoice s c)
    ∧ (c = 1 →
        (handleChoice s c).player.hasItem "Golden Key" = true
        ∧ (handleChoice s c).player.health = s.player.health
        ∧ ¬ (handleChoice s c).player.health = 100)
    ∧ (¬ c = 1 →
        (handleChoice s c).player.health = 100
        ∧ (handleChoice s c).player.hasItem "Golden Key" = false) := by
  have hlen : i < s.dungeon.rooms.length := by
    have := List.getElem?_eq_some.mp hroom
    exact this.1
  by_cases hc : c = 1
  · subst hc
    have hstep : handleChoice s 1 =
        { s with player := s.player.collectItem "Golden Key",
                 dungeon := s.dungeon.setRoom i
                   ({ room with description := "You took the Golden Key.",
                                isChoiceRoom := false }),
                 currentState := InteractionState.EXPLORING } := by
      simp [handleChoice, hi, hroom, hch]
    refine ⟨by rw [hstep], ?_, ?_, ?_, fun hne => absurd rfl hne⟩
    · rw [hstep]
      simp [Dungeon.setRoom, List.getElem?_set_self hlen]
    · intro c2
      rw [hstep]
      simp [handleChoice, Dungeon.setRoom, hi, List.getElem?_set_self hlen]
    · intro _
      rw [hstep]
      refine ⟨?_, by simp [Player.collectItem], ?_⟩
      · simp [Player.collectItem, Player.hasItem, Inventory.add, Inventory.has]
      · simp [Player.collectItem]
        omega
  · have hc2 : (c == 1) = false := by
      simpa using hc
    have hstep : handleChoice s c =
        { s with player := s.player.heal 100,
                 dungeon := s.dungeon.setRoom i
                   ({ room with description := "You drank the Health Potion.",
                                isChoiceRoom := false }),
                 currentState := InteractionState.EXPLORING } := by
      simp [handleChoice, hi, hroom, hch, hc2]
    refine ⟨by rw [hstep], ?_, ?_, fun h1 => absurd h1 hc, ?_⟩
    · rw [hstep]
      simp [Dungeon.setRoom, List.getElem?_set_self hlen]
    · intro c2
      rw [hstep]
      simp [handleChoice, Dungeon.setRoom, hi, List.getElem?_set_self hlen]
    · intro _
      rw [hstep]
      constructor
      · have hmin : min 100 (s.player.health + 100) = 100 := min_eq_left (by omega)
        simp [Player.heal, hmin]
      · simpa [Player.heal, Player.hasItem] using hkey

/-- A player state standing in an unresolved choice room with health 70
and no Golden Key, as in a reachable playthrough. -/
def choiceProbe : EngineState :=
  { player := { name := "Hero", health := 70, moves := 5,
                inventory := ⟨[]⟩, finalBossDefeated := false },
    dungeon := { rooms := [ { name := "Room of Choice", description := "",
                              entity := none, isFinalDoor := false,
                              isChoiceRoom := true,
                              backgroundID := "potion.png" } ],
                 currentRoom := some 0, path_tracker := ⟨[]⟩ },
    currentState := InteractionState.CHOICE,
    message := "", outcome := none, ranPostExhaustionBranch := false }

/-- Witness for the amended C6 at a concrete reachable-looking state,
choosing the potion. -/
theorem claim_C6_choice_resolution_witness :
    (handleChoice choiceProbe 2).currentState = InteractionState.EXPLORING
    ∧ ((handleChoice choiceProbe 2).dungeon.rooms[0]?).map Room.isChoiceRoom =
        some false
    ∧ (handleChoice choiceProbe 2).player.health = 100
    ∧ (handleChoice choiceProbe 2).player.hasItem "Golden Key" = false :=
  have h := claim_C6_choice_resolution choiceProbe 0
    { name := "Room of Choice", description := "", entity := none,
      isFinalDoor := false, isChoiceRoom := true, backgroundID := "potion.png" }
    2 rfl rfl rfl rfl (by decide) (by decide)
  ⟨h.1, h.2.1, (h.2.2.2.2 (by decide)).1, (h.2.2.2.2 (by decide)).2⟩

/-- The interact dispatch never touches the move counter. -/
lemma interact_moves (e : Entity) (p : Player) :
    (e.interact p).1.moves = p.moves := by
  cases e <;> simp [Entity.interact, Player.heal, Player.collectItem]

/-- Automatic item interaction never touches the move counter or the
post-exhaustion branch marker. -/
lemma handleItemInteraction_moves_flag (s : EngineState) :
    (handleItemInteraction s).player.moves = s.player.moves
    ∧ (handleItemInteraction s).ranPostExhaustionBranch =
        s.ranPostExhaustionBranch := by
  unfold handleItemInteraction
  repeat' split
  all_goals simp [interact_moves]

/-- Room evaluation never touches the move counter or the
post-exhaustion branch marker. -/
lemma checkRoomState_moves_flag (s : EngineState) :
    (checkRoomState s).player.moves = s.player.moves
    ∧ (checkRoomState s).ranPostExhaustionBranch =
        s.ranPostExhaustionBranch := by
  unfold checkRoomState
  repeat' split
  all_goals
    simp [triggerGameOver, handleItemInteraction_moves_flag]

/-- Combat resolution never touches the move counter or the
post-exhaustion branch marker. -/
lemma handleCombat_moves_flag (s : EngineState) :
    (handleCombat s).player.moves = s.player.moves
    ∧ (handleCombat s).ranPostExhaustionBranch =
        s.ranPostExhaustionBranch := by
  unfold handleCombat
  repeat' split
  all_goals
    simp [Player.takeDamage, Player.setBossDefeated,
      apply_ite (fun x : EngineState => x.player.moves),
      apply_ite (fun x : EngineState => x.ranPostExhaustionBranch),
      apply_ite (fun p : Player => p.moves)]

/-- Choice resolution never touches the move counter or the
post-exhaustion branch marker. -/
lemma handleChoice_moves_flag (s : EngineState) (c : Int) :
    (handleChoice s c).player.moves = s.player.moves
    ∧ (handleChoice s c).ranPostExhaustionBranch =
        s.ranPostExhaustionBranch := by
  unfold handleChoice
  repeat' split
  all_goals simp [Player.collectItem, Player.heal]

/-- When the move counter is non-negative, the transition completion
skips the post-exhaustion branch and only re-evaluates the room. -/
lemma completeTransition_moves_flag (s : EngineState)
    (h : 0 ≤ s.player.moves) :
    (completeTransition s).player.moves = s.player.moves
    ∧ (completeTransition s).ranPostExhaustionBranch =
        s.ranPostExhaustionBranch := by
  unfold completeTransition
  rw [if_neg (by omega)]
  exact checkRoomState_moves_flag s

/-- The transition completion preserves the engine invariant from any
state with a non-negative move counter. -/
lemma completeTransition_inv (t : EngineState)
    (h0 : 0 ≤ t.player.moves) (hf : t.ranPostExhaustionBranch = false) :
    0 ≤ (completeTransition t).player.moves
    ∧ (completeTransition t).ranPostExhaustionBranch = false := by
  have hc := completeTransition_moves_flag t h0
  refine ⟨?_, ?_⟩
  · rw [hc.1]; exact h0
  · rw [hc.2]; exact hf

/-- Moving forward spends at most one move and never touches the
post-exhaustion branch marker. -/
lemma moveForwardStep_moves_flag (s : EngineState) :
    ((moveForwardStep s).player.moves = s.player.moves
      ∨ (moveForwardStep s).player.moves = s.player.moves - 1)
    ∧ (moveForwardStep s).ranPostExhaustionBranch =
        s.ranPostExhaustionBranch := by
  unfold moveForwardStep Dungeon.moveForward
  repeat' split
  all_goals simp [Player.useMove]

/-- Moving back spends at most one move and never touches the
post-exhaustion branch marker. -/
lemma moveBackStep_moves_flag (s : EngineState) :
    ((moveBackStep s).player.moves = s.player.moves
      ∨ (moveBackStep s).player.moves = s.player.moves - 1)
    ∧ (moveBackStep s).ranPostExhaustionBranch =
        s.ranPostExhaustionBranch := by
  unfold moveBackStep Dungeon.moveBack
  repeat' split
  all_goals simp [Player.useMove]

/-- One engine step preserves the invariant that the move counter is
non-negative and the post-exhaustion branch has never executed: a
navigation decrement only happens after the moves-at-most-0 pre-guard
has passed, so the counter stays at 0 or above. -/
lemma handleEvent_inv (s : EngineState) (c : Command)
    (h0 : 0 ≤ s.player.moves) (hf : s.ranPostExhaustionBranch = false) :
    0 ≤ (handleEvent s c).player.moves
    ∧ (handleEvent s c).ranPostExhaustionBranch = false := by
  unfold handleEvent
  by_cases ho : s.outcome.isSome = true
  · rw [if_pos ho]
    exact ⟨h0, hf⟩
  · rw [if_neg ho]
    cases hst : s.currentState <;> cases c <;> dsimp only
    all_goals try exact ⟨h0, hf⟩
    · -- EXPLORING, forward
      by_cases hm : s.player.moves ≤ 0
      · rw [if_pos hm]
        exact ⟨h0, hf⟩
      · rw [if_neg hm]
        by_cases hcf : s.dungeon.canMoveForward = true
        · rw [if_pos hcf]
          apply completeTransition_inv
          · rcases (moveForwardStep_moves_flag s).1 with h | h <;> omega
          · rw [(moveForwardStep_moves_flag s).2]; exact hf
        · rw [if_neg hcf]
          exact ⟨h0, hf⟩
    · -- EXPLORING, back
      by_cases hm : s.player.moves ≤ 0
      · rw [if_pos hm]
        exact ⟨h0, hf⟩
      · rw [if_neg hm]
        by_cases hcb : s.dungeon.canMoveBack = true
        · rw [if_pos hcb]
          apply completeTransition_inv
          · rcases (moveBackStep_moves_flag s).1 with h | h <;> omega
          · rw [(moveBackStep_moves_flag s).2]; exact hf
        · rw [if_neg hcb]
          exact ⟨h0, hf⟩
    · -- EXPLORING, collect
      repeat' split
      all_goals try exact ⟨h0, hf⟩
      apply completeTransition_inv
      · simpa [collectSwordStep, Player.collectItem] using h0
      · simpa [collectSwordStep, Player.collectItem] using hf
    · -- COMBAT, fight
      apply completeTransition_inv
      · rw [(handleCombat_moves_flag s).1]; exact h0
      · rw [(handleCombat_moves_flag s).2]; exact hf
    · -- CHOICE, option 1
      apply completeTransition_inv
      · rw [(handleChoice_moves_flag s 1).1]; exact h0
      · rw [(handleChoice_moves_flag s 1).2]; exact hf
    · -- CHOICE, option 2
      apply completeTransition_inv
      · rw [(handleChoice_moves_flag s 2).1]; exact h0
      · rw [(handleChoice_moves_flag s 2).2]; exact hf
    · -- MESSAGE, acknowledge
      apply completeTransition_inv
      · exact h0
      · exact hf

/-- Claim C10: from the initial configuration (moves = 10), every
reachable engine state has a non-negative move counter, and the
post-transition moves-below-zero game-over branch never executes — the
pre-navigation guard blocks every navigation once moves reach 0, so a
decrement can only start from a positive counter. -/
theorem claim_C10_moves_invariant (playerName : String) (cs : List Command) :
    0 ≤ (run (initialEngineState playerName) cs).player.moves
    ∧ (run (initialEngineState playerName) cs).ranPostExhaustionBranch = false := by
  have hgen : ∀ (cmds : List Command) (s : EngineState),
      0 ≤ s.player.moves → s.ranPostExhaustionBranch = false →
      0 ≤ (run s cmds).player.moves
      ∧ (run s cmds).ranPostExhaustionBranch = false := by
    intro cmds
    induction cmds with
    | nil => intro s h0 hf; exact ⟨h0, hf⟩
    | cons c rest ih =>
      intro s h0 hf
      have hstep := handleEvent_inv s c h0 hf
      exact ih (handleEvent s c) hstep.1 hstep.2
  apply hgen
  · have hbase := checkRoomState_moves_flag
      { player := { name := playerName, health := 100, moves := 10,
                    inventory := ⟨[]⟩, finalBossDefeated := false },
        dungeon := { rooms := setupDungeon, currentRoom := some 0,
                     path_tracker := ⟨[]⟩ },
        currentState := InteractionState.EXPLORING,
        message := "", outcome := none, ranPostExhaustionBranch := false }
    rw [initialEngineState, hbase.1]
    show (0 : Int) ≤ 10
    decide
  · have hbase := checkRoomState_moves_flag
      { player := { name := playerName, health := 100, moves := 10,
                    inventory := ⟨[]⟩, finalBossDefeated := false },
        dungeon := { rooms := setupDungeon, currentRoom := some 0,
                     path_tracker := ⟨[]⟩ },
        currentState := InteractionState.EXPLORING,
        message := "", outcome := none, ranPostExhaustionBranch := false }
    rw [initialEngineState, hbase.2]

end DungeonEscape

